import Mathlib

/-!
Shallow embedding of the Sentinel AI backend (`src/app`): the candidate
store (`app/db/crud.py`), the verification state machine
(`app/services/verification_orchestrator.py`), the synthesizer
(`app/services/synthesizer_service.py`) and the scanner supervisor
(`app/services/scanner_service.py`).  Machine-level details that the claims
do not touch (UUIDs, wall-clock datetimes, SQL sessions) are abstracted to
`Nat` identifiers and explicit store lists; each fallible external call
(the Gemini "Oracle", the evidence gatherers) is an explicit parameter of
the embedded function.
-/

namespace SentinelAI

/-- One entry of the `sources` JSON column of a TimelineItem. -/
structure Source where
  title : String
  url : String
deriving Repr, DecidableEq

/-- Row of the `crises` table (`crud.py`, class `Crisis`).  `severity` is the
integer column; ids and timestamps are abstracted to `Nat`. -/
structure Crisis where
  id : Nat
  name : String
  description : String
  keywords : String
  severity : Int
  location : String
  verdictStatus : String
  verdictSummary : String
  createdAt : Nat
  updatedAt : Nat
deriving Repr, DecidableEq

/-- Row of the `timeline_items` table (`crud.py`, class `TimelineItem`).
The status enum is kept as its string value. -/
structure TimelineItem where
  id : Nat
  crisisId : Nat
  claimText : String
  summary : String
  status : String
  sources : List Source
  location : Option String
  timestamp : Nat
deriving Repr, DecidableEq

/-- Row of the `adhoc_analyses` table (`crud.py`, class `AdHocAnalysis`). -/
structure AdhocAnalysis where
  id : Nat
  queryText : String
  status : String
  verdictStatus : Option String
  verdictSummary : Option String
  verdictSources : Option (List Source)
  createdAt : Nat
deriving Repr, DecidableEq

/-! ## Candidate store operations (`app/db/crud.py`) -/

/-- `crud.get_timeline_item_by_claim_text`: first row whose `claim_text`
equals the given text. -/
def get_timeline_item_by_claim_text (store : List TimelineItem) (claimText : String) :
    Option TimelineItem :=
  store.find? (fun i => i.claimText == claimText)

/-- `crud.create_timeline_item` (crud.py lines 162-171): if a row with the
same `claim_text` exists it is returned unchanged; otherwise a fresh row is
inserted.  Returns the new store plus the row handed back to the caller. -/
def create_timeline_item (store : List TimelineItem) (newId crisisId : Nat)
    (claimText summary status : String) (sources : List Source)
    (location : Option String) (now : Nat) : List TimelineItem × TimelineItem :=
  match get_timeline_item_by_claim_text store claimText with
  | some existing => (store, existing)
  | none =>
    let item : TimelineItem :=
      { id := newId, crisisId := crisisId, claimText := claimText,
        summary := summary, status := status, sources := sources,
        location := location, timestamp := now }
    (store ++ [item], item)

/-- `crud.update_timeline_item` (crud.py lines 149-160): overwrite status,
summary, sources and timestamp of the row with the given id. -/
def update_timeline_item (store : List TimelineItem) (itemId : Nat)
    (status summary : String) (sources : List Source) (now : Nat) :
    List TimelineItem :=
  store.map (fun i =>
    if i.id = itemId then
      { i with status := status, summary := summary, sources := sources,
               timestamp := now }
    else i)

/-- `crud.create_crisis` (crud.py lines 80-96): the severity argument is
stored as passed, with fixed initial verdict fields. -/
def create_crisis (store : List Crisis) (newId : Nat)
    (name description keywords : String) (severity : Int) (location : String)
    (now : Nat) : List Crisis × Crisis :=
  let c : Crisis :=
    { id := newId, name := name, description := description,
      keywords := keywords, severity := severity, location := location,
      verdictStatus := "PENDING",
      verdictSummary := "Initial assessment in progress. Sentinel AI is aggregating claims...",
      createdAt := now, updatedAt := now }
  (store ++ [c], c)

/-- `crud.update_crisis_verdict` (crud.py lines 115-124): set the verdict
fields of the row with the given id and refresh `updated_at`. -/
def update_crisis_verdict (store : List Crisis) (crisisId : Nat)
    (verdictStatus verdictSummary : String) (now : Nat) : List Crisis :=
  store.map (fun c =>
    if c.id = crisisId then
      { c with verdictStatus := verdictStatus,
               verdictSummary := verdictSummary, updatedAt := now }
    else c)

/-- `crud.update_adhoc_analysis` with no verdict argument: only the status
column changes. -/
def update_adhoc_status (store : List AdhocAnalysis) (analysisId : Nat)
    (status : String) : List AdhocAnalysis :=
  store.map (fun a => if a.id = analysisId then { a with status := status } else a)

/-- A synthesized verdict object `{status, summary, sources}`. -/
structure Verdict where
  status : String
  summary : String
  sources : List Source
deriving Repr, DecidableEq

/-- `crud.update_adhoc_analysis` with a verdict dict: status plus the three
verdict columns change. -/
def update_adhoc_with_verdict (store : List AdhocAnalysis) (analysisId : Nat)
    (status : String) (v : Verdict) : List AdhocAnalysis :=
  store.map (fun a =>
    if a.id = analysisId then
      { a with status := status, verdictStatus := some v.status,
               verdictSummary := some v.summary, verdictSources := some v.sources }
    else a)

/-! ## Verification state machine (`app/services/verification_orchestrator.py`) -/

/-- `MAX_RETRIES = 1` (verification_orchestrator.py line 20). -/
def MAX_RETRIES : Nat := 1

/-- Substring test matching the Python operator `needle in hay`, on character lists. -/
def listContainsSub (needle : List Char) : List Char → Bool
  | [] => needle.isEmpty
  | c :: t => needle.isPrefixOf (c :: t) || listContainsSub needle t

/-- The Python membership test `needle in hay` on strings. -/
def pyIn (needle hay : String) : Bool :=
  listContainsSub needle.toList hay.toList

/-- The substantive-evidence test of the assessor (`node_assessor` line 109-111):
an item `x` counts unless `"No " in x[:10]`. -/
def isSubstantive (x : String) : Bool :=
  !(pyIn "No " (x.take 10))

/-- The `VerificationState` TypedDict, restricted to the fields the control
flow reads and writes. -/
structure VerificationState where
  claimText : String
  currentQuery : String
  location : String
  officialEvidence : List String
  mediaEvidence : List String
  debunkEvidence : List String
  retryCount : Nat
  status : String
deriving Repr, DecidableEq

/-- The joint output of one parallel GATHER round: what the three agent
nodes (`node_official_checker`, `node_media_cross_referencer`,
`node_debunker`) write back into the state.  Each agent absorbs its own
failure into an empty list, so to the state machine a round is just three
string lists supplied by the environment. -/
structure GatherRound where
  official : List String
  media : List String
  debunk : List String
deriving Repr, DecidableEq

/-- The fan-in of one GATHER round into the shared state. -/
def gatherStep (r : GatherRound) (s : VerificationState) : VerificationState :=
  { s with officialEvidence := r.official, mediaEvidence := r.media,
           debunkEvidence := r.debunk }

/-- `total_hits` of `node_assessor`: substantive items summed over the three
categories. -/
def substantiveCount (s : VerificationState) : Nat :=
  (s.officialEvidence.filter isSubstantive).length +
    (s.mediaEvidence.filter isSubstantive).length +
    (s.debunkEvidence.filter isSubstantive).length

/-- `node_assessor` (lines 99-121): refine only when no substantive evidence
was found and the retry budget is not exhausted. -/
def assessStatus (s : VerificationState) : String :=
  if substantiveCount s = 0 ∧ s.retryCount < MAX_RETRIES then "NEEDS_REFINEMENT"
  else "READY_TO_SYNTHESIZE"

/-- `node_query_refiner` (lines 123-150).  The refinement Oracle either
succeeds with a new query (`some q`) or fails (`none`).  On success the
query is replaced, the retry counter incremented and the three evidence
lists cleared; on failure only the retry counter is incremented. -/
def node_query_refiner (oracle : Option String) (s : VerificationState) :
    VerificationState :=
  match oracle with
  | some newQuery =>
      { s with currentQuery := newQuery, retryCount := s.retryCount + 1,
               officialEvidence := [], mediaEvidence := [], debunkEvidence := [] }
  | none => { s with retryCount := s.retryCount + 1 }

/-- Result of running the graph: the final state together with how many
GATHER rounds ran (each round is one invocation of each of the three
gatherers), or fuel exhaustion of the bounded recursion used by the embedding. -/
inductive RunOutcome where
  | finished (s : VerificationState) (roundsDone : Nat)
  | outOfFuel
deriving Repr, DecidableEq

/-- The GATHER → ASSESS → (REFINE → GATHER | SYNTHESIZE) loop of the
compiled graph.  `roundsOf k` is what the three gatherers return on round
`k`; `refineOf j` is the answer of the refinement Oracle on call number `j`.
The fuel argument only bounds the recursion of the embedding; the termination
lemma below shows fuel `MAX_RETRIES + 1 - retryCount` always suffices. -/
def runLoop (roundsOf : Nat → GatherRound) (refineOf : Nat → Option String) :
    Nat → VerificationState → Nat → RunOutcome
  | 0, _, _ => .outOfFuel
  | fuel + 1, s, roundsDone =>
    let s1 := gatherStep (roundsOf roundsDone) s
    let s2 := { s1 with status := assessStatus s1 }
    if s2.status = "NEEDS_REFINEMENT" then
      runLoop roundsOf refineOf fuel
        (node_query_refiner (refineOf s2.retryCount) s2) (roundsDone + 1)
    else
      .finished s2 (roundsDone + 1)

/-- The initial state built by `run_verification_pipeline` (lines 240-254):
the query is the claim text, a space, then the location (or nothing when the location equals the literal Unknown),
empty evidence, retry count zero. -/
def initState (claimText location : String) : VerificationState :=
  { claimText := claimText,
    currentQuery := claimText ++ " " ++ (if location = "Unknown" then "" else location),
    location := location,
    officialEvidence := [], mediaEvidence := [], debunkEvidence := [],
    retryCount := 0, status := "STARTING" }

/-- `run_verification_pipeline`: execute the graph from the initial state.
Fuel `MAX_RETRIES + 1` is enough for every run (termination lemma below). -/
def run_verification_pipeline (roundsOf : Nat → GatherRound)
    (refineOf : Nat → Option String) (claimText location : String) : RunOutcome :=
  runLoop roundsOf refineOf (MAX_RETRIES + 1) (initState claimText location) 0

/-- All three categories of a gather round are free of substantive items. -/
def roundAllNegative (r : GatherRound) : Prop :=
  r.official.filter isSubstantive = [] ∧ r.media.filter isSubstantive = [] ∧
    r.debunk.filter isSubstantive = []

/-! ## Selection phase (`app/services/scanner_service.py` lines 192-260) -/

/-- Working-set size: the selection prompt asks for exactly 10 ids and
`_fallback_pruning` keeps `all_crises[:10]`. -/
def workingSetK : Nat := 10

/-- What the selection Oracle hand-back amounts to after JSON parsing:
either the whole call failed (exception / parse error) or it produced the
`selected_ids` list. -/
inductive SelectionOracle where
  | failure
  | success (ids : List Nat)
deriving Repr, DecidableEq

/-- `_fallback_pruning` (lines 253-260): stable sort by severity descending,
keep the first 10, delete the rest.  The store keeps its fetch order, so
the surviving rows are the original list filtered to the kept ids. -/
def fallback_pruning (crises : List Crisis) : List Crisis :=
  let sorted := crises.mergeSort (fun a b => b.severity ≤ a.severity)
  let keepIds := (sorted.take workingSetK).map Crisis.id
  crises.filter (fun c => decide (c.id ∈ keepIds))

/-- `perform_agentic_selection` (lines 192-251): on Oracle failure or an
empty `selected_ids`, fall back; otherwise delete every crisis whose id is
not in the returned list.  Returns the surviving store. -/
def perform_agentic_selection (crises : List Crisis) (oracle : SelectionOracle) :
    List Crisis :=
  if crises.isEmpty then crises
  else
    match oracle with
    | .failure => fallback_pruning crises
    | .success keepIds =>
      if keepIds.isEmpty then fallback_pruning crises
      else crises.filter (fun c => decide (c.id ∈ keepIds))

/-- Number of ids the Oracle effectively hands to the deletion loop
(an empty list is routed to the fallback). -/
def selectionOracleIdCount : SelectionOracle → Nat
  | .failure => 0
  | .success ids => if ids.isEmpty then 0 else ids.length

/-! ## Evidence synthesizer (`app/services/synthesizer_service.py`) -/

/-- Outcome of the single-claim synthesis Oracle call:
`failure` models an exception while calling the model (caught by the outer
`except`), `malformed` models a reply whose JSON does not parse
(`json.JSONDecodeError` branch), `ok v` a parsed verdict. -/
inductive SynthOracle where
  | failure
  | malformed
  | ok (v : Verdict)
deriving Repr, DecidableEq

/-- The fallback verdict built on `JSONDecodeError` (lines 154-159). -/
def malformedFallbackVerdict : Verdict :=
  { status := "UNCONFIRMED",
    summary := "System error during verification synthesis.", sources := [] }

/-- The dict returned from the outer `except` branch (line 195). -/
def internalErrorVerdict : Verdict :=
  { status := "UNCONFIRMED", summary := "Internal Error", sources := [] }

/-- The timeline and adhoc parts of the candidate store that
`synthesize_evidence` can touch. -/
structure SynthStore where
  timeline : List TimelineItem
  adhoc : List AdhocAnalysis
deriving Repr, DecidableEq

/-- `synthesize_evidence` (synthesizer_service.py lines 110-195).  When the
Oracle call itself raises, the `except` branch runs: nothing is written
except an associated AdhocAnalysis being marked FAILED, and the
`internalErrorVerdict` is returned.  When the call succeeds, the parsed (or
fallback) result is persisted by priority: adhoc id, else timeline-item id,
else crisis id (a fresh TimelineItem via `create_timeline_item`), else
nothing. -/
def synthesize_evidence (store : SynthStore) (oracle : SynthOracle)
    (claim : String) (crisisId adhocId timelineId : Option Nat)
    (location : String) (newId now : Nat) : SynthStore × Verdict :=
  match oracle with
  | .failure =>
    let store' :=
      match adhocId with
      | some aid => { store with adhoc := update_adhoc_status store.adhoc aid "FAILED" }
      | none => store
    (store', internalErrorVerdict)
  | .malformed => persistSynthesisResult store malformedFallbackVerdict claim
      crisisId adhocId timelineId location newId now
  | .ok v => persistSynthesisResult store v claim crisisId adhocId timelineId
      location newId now
where
  /-- The branching persistence logic of lines 161-189. -/
  persistSynthesisResult (store : SynthStore) (result : Verdict) (claim : String)
      (crisisId adhocId timelineId : Option Nat) (location : String)
      (newId now : Nat) : SynthStore × Verdict :=
    match adhocId with
    | some aid =>
      ({ store with adhoc := update_adhoc_with_verdict store.adhoc aid "COMPLETED" result },
       result)
    | none =>
      match timelineId with
      | some tid =>
        ({ store with timeline := (update_timeline_item store.timeline tid
            result.status result.summary result.sources now) }, result)
      | none =>
        match crisisId with
        | some cid =>
          ({ store with timeline := (create_timeline_item store.timeline newId cid
              claim result.summary result.status result.sources (some location) now).1 },
           result)
        | none => (store, result)

/-- Outcome of the crisis-conclusion Oracle call (failure covers both an
exception and unparseable JSON, which the single `except` absorbs). -/
inductive ConclusionOracle where
  | failure
  | ok (verdictStatus verdictSummary : String)
deriving Repr, DecidableEq

/-- `synthesize_crisis_conclusion` (synthesizer_service.py lines 197-244):
no-op (zero Oracle calls) when the crisis is missing or has no timeline
items; otherwise exactly one Oracle call, whose success writes the master
verdict through `update_crisis_verdict`.  Returns the new crisis store and
the number of Oracle conclusion calls made. -/
def synthesize_crisis_conclusion (crises : List Crisis)
    (timeline : List TimelineItem) (crisisId : Nat) (oracle : ConclusionOracle)
    (now : Nat) : List Crisis × Nat :=
  match crises.find? (fun c => c.id == crisisId) with
  | none => (crises, 0)
  | some _ =>
    let items := timeline.filter (fun i => i.crisisId == crisisId)
    if items.isEmpty then (crises, 0)
    else
      match oracle with
      | .failure => (crises, 1)
      | .ok vs vsum => (update_crisis_verdict crises crisisId vs vsum now, 1)

/-! ## Deep-gathering batch builder (`scanner_service.py` lines 331-367) -/

/-- `MAX_CONCURRENT_SCANS = 5` (scanner_service.py line 30). -/
def MAX_CONCURRENT_SCANS : Nat := 5

/-- Fallback row used to totalize the indexing
`normal_risk[normal_queue_ptr % len(normal_risk)]` (the guard ensures the
list is non-empty, so this default is never selected). -/
def defaultCrisis : Crisis :=
  { id := 0, name := "", description := "", keywords := "", severity := 0,
    location := "", verdictStatus := "PENDING", verdictSummary := "",
    createdAt := 0, updatedAt := 0 }

/-- The `for _ in range(slots)` loop filling free batch slots round-robin
from the normal-risk list, advancing the persistent pointer each step and
skipping items already batched. -/
def fillSlots : Nat → List Crisis → List Crisis → Nat → List Crisis × Nat
  | 0, _, batch, ptr => (batch, ptr)
  | n + 1, normal, batch, ptr =>
    let c := normal.getD (ptr % normal.length) defaultCrisis
    let batch' := if c ∈ batch then batch else batch ++ [c]
    fillSlots n normal batch' (ptr + 1)

/-- One iteration of batch building (lines 345-357): start from the
cooldown-eligible high-risk items, then fill remaining capacity (up to the
concurrency ceiling) from the normal-risk list.  Returns the batch and the
updated round-robin pointer. -/
def buildBatch (highEligible normal : List Crisis) (ptr : Nat) :
    List Crisis × Nat :=
  let batch := highEligible
  let slots := MAX_CONCURRENT_SCANS - batch.length
  if slots > 0 ∧ ¬normal.isEmpty then fillSlots slots normal batch ptr
  else (batch, ptr)

/-- Pointer value before iteration `k`, with `highOf j` the cooldown-eligible
high-risk items of iteration `j` (the pointer persists across iterations). -/
def ptrBefore (highOf : Nat → List Crisis) (normal : List Crisis) (ptr0 : Nat) :
    Nat → Nat
  | 0 => ptr0
  | k + 1 => (buildBatch (highOf k) normal (ptrBefore highOf normal ptr0 k)).2

/-- The batch dispatched at iteration `k`. -/
def batchAt (highOf : Nat → List Crisis) (normal : List Crisis) (ptr0 k : Nat) :
    List Crisis :=
  (buildBatch (highOf k) normal (ptrBefore highOf normal ptr0 k)).1

/-! ## Claim C4 -/

/-- Claim C4: calling `create_timeline_item` a second time with the same
`claimText` (whatever the other arguments are) hands back exactly the pair
produced by the first call — the same row, hence the same id, and the
store, hence its row count, is unchanged. -/
theorem create_timeline_item_idempotent_on_claim
    (store : List TimelineItem) (claimText : String)
    (id1 cid1 : Nat) (sum1 st1 : String) (src1 : List Source)
    (loc1 : Option String) (t1 : Nat)
    (id2 cid2 : Nat) (sum2 st2 : String) (src2 : List Source)
    (loc2 : Option String) (t2 : Nat) :
    create_timeline_item
        (create_timeline_item store id1 cid1 claimText sum1 st1 src1 loc1 t1).1
        id2 cid2 claimText sum2 st2 src2 loc2 t2 =
      create_timeline_item store id1 cid1 claimText sum1 st1 src1 loc1 t1 := by
  unfold create_timeline_item get_timeline_item_by_claim_text
  cases h : store.find? (fun i => i.claimText == claimText) with
  | some e => simp [h]
  | none => simp [h, List.find?_append]

/-! ## Claim C10 -/

/-- Claim C10: when a row with the given `claimText` already exists,
`create_timeline_item` returns the store untouched together with that very
row — every field of the stored row keeps its prior value and the new
arguments of the new call are discarded. -/
theorem create_timeline_item_duplicate_frame
    (store : List TimelineItem) (e : TimelineItem) (newId cid : Nat)
    (claimText sum st : String) (src : List Source) (loc : Option String)
    (now : Nat)
    (h : get_timeline_item_by_claim_text store claimText = some e) :
    create_timeline_item store newId cid claimText sum st src loc now =
      (store, e) := by
  unfold create_timeline_item
  rw [h]

/-- Stored row reused for the C10 witness. -/
def witnessRow : TimelineItem :=
  { id := 3, crisisId := 9, claimText := "Signal Detected: Flood", summary := "old summary",
    status := "VERIFIED", sources := [{ title := "t", url := "u" }],
    location := some "Mumbai", timestamp := 4 }

/-- Witness for C10 at a concrete store. -/
theorem create_timeline_item_duplicate_frame_witness :
    create_timeline_item [witnessRow] 99 1 "Signal Detected: Flood" "new summary"
        "DEBUNKED" [] none 77 = ([witnessRow], witnessRow) :=
  create_timeline_item_duplicate_frame [witnessRow] witnessRow 99 1
    "Signal Detected: Flood" "new summary" "DEBUNKED" [] none 77 (by decide)

/-! ## Claim C6 -/

/-- State used to refute the evidence-clearing half of claim C6. -/
def staleState : VerificationState :=
  { claimText := "claim", currentQuery := "claim ", location := "Unknown",
    officialEvidence := ["stale official item"], mediaEvidence := [],
    debunkEvidence := [], retryCount := 0, status := "NEEDS_REFINEMENT" }

/-- Counterexample to claim C6: when the refinement Oracle fails, the
accumulated evidence lists are NOT cleared — the stale official item is
still in the state handed to the next GATHER round. -/
theorem node_query_refiner_failure_keeps_evidence :
    (node_query_refiner none staleState).officialEvidence
      = ["stale official item"] ∧
    ¬(node_query_refiner none staleState).officialEvidence = [] := by
  constructor
  · rfl
  · decide

/-- Claim C6 as amended: on Oracle failure the query is kept and
`retryCount` still increments, but the three evidence lists are left
untouched (not cleared); only on Oracle success are they cleared, together
with the query replacement and the retry increment. -/
theorem node_query_refiner_effects (s : VerificationState) (q : String) :
    (node_query_refiner none s).currentQuery = s.currentQuery ∧
    (node_query_refiner none s).retryCount = s.retryCount + 1 ∧
    (node_query_refiner none s).officialEvidence = s.officialEvidence ∧
    (node_query_refiner none s).mediaEvidence = s.mediaEvidence ∧
    (node_query_refiner none s).debunkEvidence = s.debunkEvidence ∧
    (node_query_refiner (some q) s).currentQuery = q ∧
    (node_query_refiner (some q) s).retryCount = s.retryCount + 1 ∧
    (node_query_refiner (some q) s).officialEvidence = [] ∧
    (node_query_refiner (some q) s).mediaEvidence = [] ∧
    (node_query_refiner (some q) s).debunkEvidence = [] := by
  simp [node_query_refiner]

/-! ## Claim C3 -/

/-- The claim text of the C3 scenario. -/
def floodClaim : String := "Flood reported in Downtown"

/-- The gather-round output of the C3 scenario: official evidence is the
single item `"Gov Report: No floods detected."`, media and debunk empty. -/
def floodRound : GatherRound :=
  { official := ["Gov Report: No floods detected."], media := [], debunk := [] }

/-- The state the assessor sees on pass 1 of the C3 scenario. -/
def floodPass1State : VerificationState :=
  gatherStep floodRound (initState floodClaim "Downtown")

/-- Counterexample to claim C3: the official item of the scenario is NOT treated
as a negative-result placeholder (its first ten characters, `"Gov Report"`,
do not contain `"No "`), so pass 1 counts one substantive item — not zero —
and the assessor answers `READY_TO_SYNTHESIZE`, not `NEEDS_REFINEMENT`. -/
theorem flood_scenario_pass1_is_substantive :
    substantiveCount floodPass1State = 1 ∧
    assessStatus floodPass1State = "READY_TO_SYNTHESIZE" ∧
    ¬assessStatus floodPass1State = "NEEDS_REFINEMENT" := by
  refine ⟨by decide, by decide, by decide⟩

/-- Claim C3 as amended: in the scenario the lone official item counts as
substantive because the `"No "` marker is searched only in the first ten
characters, so the run performs no refinement at all — it finishes after a
single GATHER round with retry count still zero and goes straight to
synthesis. -/
theorem flood_scenario_single_round :
    run_verification_pipeline (fun _ => floodRound) (fun _ => none)
        floodClaim "Downtown" =
      .finished { floodPass1State with status := "READY_TO_SYNTHESIZE" } 1 := by
  decide

/-! ## Claim C5 -/

/-- Store used to refute claim C5. -/
def emptySynthStore : SynthStore := { timeline := [], adhoc := [] }

/-- Counterexample to claim C5: on a synthesis-Oracle call failure (the
exception path), a crisis-associated run persists nothing — the timeline
store stays empty, no TimelineItem records the UNCONFIRMED verdict, even
though the returned verdict is the UNCONFIRMED default. -/
theorem synthesize_evidence_failure_not_persisted :
    (synthesize_evidence emptySynthStore .failure "Flood reported" (some 7)
        none none "Downtown" 1 0).1.timeline = [] ∧
    (synthesize_evidence emptySynthStore .failure "Flood reported" (some 7)
        none none "Downtown" 1 0).2.status = "UNCONFIRMED" := by
  refine ⟨rfl, rfl⟩

/-- Claim C5 as amended: only MALFORMED Oracle output yields the persisted
UNCONFIRMED fallback — a crisis-associated run then gets a fresh
TimelineItem carrying the generic summary and empty sources (when the claim
text is not already stored).  When the Oracle call itself fails, nothing is
persisted for a crisis-associated run, and an associated AdhocAnalysis is
marked FAILED instead. -/
theorem synthesize_evidence_failure_policy
    (store : SynthStore) (claim location : String) (cid aid newId now : Nat)
    (hfresh : get_timeline_item_by_claim_text store.timeline claim = none) :
    (synthesize_evidence store .malformed claim (some cid) none none location
        newId now).2 = malformedFallbackVerdict ∧
    (synthesize_evidence store .malformed claim (some cid) none none location
        newId now).1.timeline =
      store.timeline ++
        [{ id := newId, crisisId := cid, claimText := claim,
           summary := "System error during verification synthesis.",
           status := "UNCONFIRMED", sources := [], location := some location,
           timestamp := now }] ∧
    (synthesize_evidence store .failure claim (some cid) none none location
        newId now).1 = store ∧
    (synthesize_evidence store .failure claim (some cid) (some aid) none
        location newId now).1.timeline = store.timeline ∧
    (synthesize_evidence store .failure claim (some cid) (some aid) none
        location newId now).1.adhoc =
      update_adhoc_status store.adhoc aid "FAILED" ∧
    (synthesize_evidence store .failure claim (some cid) (some aid) none
        location newId now).2.status = "UNCONFIRMED" := by
  refine ⟨rfl, ?_, rfl, rfl, rfl, rfl⟩
  simp [synthesize_evidence, synthesize_evidence.persistSynthesisResult,
    create_timeline_item, hfresh, malformedFallbackVerdict]

/-- Witness for the amended C5 at a concrete empty store. -/
theorem synthesize_evidence_failure_policy_witness :
    (synthesize_evidence emptySynthStore .malformed "Flood reported" (some 7)
        none none "Downtown" 1 0).1.timeline =
      [{ id := 1, crisisId := 7, claimText := "Flood reported",
         summary := "System error during verification synthesis.",
         status := "UNCONFIRMED", sources := [], location := some "Downtown",
         timestamp := 0 }] := by
  have h := synthesize_evidence_failure_policy emptySynthStore "Flood reported"
    "Downtown" 7 4 1 0 (by decide)
  simpa [emptySynthStore] using h.2.1

/-! ## Claim C7 -/

/-- Crisis used to refute the `updatedAt` frame condition of claim C7. -/
def conclusionCrisis : Crisis :=
  { id := 1, name := "Crisis A", description := "desc", keywords := "kw",
    severity := 80, location := "Mumbai", verdictStatus := "PENDING",
    verdictSummary := "", createdAt := 0, updatedAt := 0 }

/-- Three timeline items (2 VERIFIED, 1 DEBUNKED) under `conclusionCrisis`,
matching the scenario of claim C7. -/
def conclusionItems : List TimelineItem :=
  [{ id := 10, crisisId := 1, claimText := "claim one", summary := "s1",
     status := "VERIFIED", sources := [], location := none, timestamp := 1 },
   { id := 11, crisisId := 1, claimText := "claim two", summary := "s2",
     status := "VERIFIED", sources := [], location := none, timestamp := 2 },
   { id := 12, crisisId := 1, claimText := "claim three", summary := "s3",
     status := "DEBUNKED", sources := [], location := none, timestamp := 3 }]

/-- Counterexample to claim C7: on the 2-VERIFIED/1-DEBUNKED scenario the
Conclusion Synthesizer does NOT leave `updatedAt` unchanged —
`update_crisis_verdict` refreshes it (from 0 to the current time 5). -/
theorem crisis_conclusion_refreshes_updatedAt :
    (synthesize_crisis_conclusion [conclusionCrisis] conclusionItems 1
        (.ok "CONFIRMED SITUATION" "summary") 5).1.map Crisis.updatedAt = [5] ∧
    ¬(synthesize_crisis_conclusion [conclusionCrisis] conclusionItems 1
        (.ok "CONFIRMED SITUATION" "summary") 5).1.map Crisis.updatedAt
        = [conclusionCrisis.updatedAt] := by
  refine ⟨rfl, by decide⟩

/-- Claim C7 as amended: with at least one TimelineItem under the crisis,
one invocation makes exactly one Oracle conclusion call and rewrites only
`verdictStatus`, `verdictSummary` and `updatedAt` of that crisis row —
name, description, keywords, severity, location and `createdAt` are
unchanged, and every other crisis row is untouched.  With no TimelineItems
the invocation is a no-op making zero Oracle calls. -/
theorem crisis_conclusion_frame
    (crises : List Crisis) (timeline : List TimelineItem) (cid : Nat)
    (vs vsum : String) (now : Nat)
    (hfound : ¬crises.find? (fun c => c.id == cid) = none) :
    ((¬(timeline.filter (fun i => i.crisisId == cid)).isEmpty = true →
        (synthesize_crisis_conclusion crises timeline cid (.ok vs vsum) now).2 = 1 ∧
        (synthesize_crisis_conclusion crises timeline cid (.ok vs vsum) now).1 =
          crises.map (fun c =>
            if c.id = cid then
              { c with verdictStatus := vs, verdictSummary := vsum,
                       updatedAt := now }
            else c)) ∧
      ((timeline.filter (fun i => i.crisisId == cid)).isEmpty = true →
        synthesize_crisis_conclusion crises timeline cid (.ok vs vsum) now =
          (crises, 0))) := by
  cases h : crises.find? (fun c => c.id == cid) with
  | none => exact absurd h hfound
  | some c0 =>
    constructor
    · intro hne
      rw [Bool.not_eq_true] at hne
      constructor
      · simp [synthesize_crisis_conclusion, h, hne]
      · simp [synthesize_crisis_conclusion, h, hne, update_crisis_verdict]
    · intro hemp
      simp [synthesize_crisis_conclusion, h, hemp]

/-- Witness for the amended C7 on the concrete 2-VERIFIED/1-DEBUNKED
scenario. -/
theorem crisis_conclusion_frame_witness :
    (synthesize_crisis_conclusion [conclusionCrisis] conclusionItems 1
        (.ok "CONFIRMED SITUATION" "summary") 5).2 = 1 ∧
    (synthesize_crisis_conclusion [conclusionCrisis] conclusionItems 1
        (.ok "CONFIRMED SITUATION" "summary") 5).1 =
      [{ conclusionCrisis with
         verdictStatus := "CONFIRMED SITUATION",
         verdictSummary := "summary", updatedAt := 5 }] := by
  have h := crisis_conclusion_frame [conclusionCrisis] conclusionItems 1
    "CONFIRMED SITUATION" "summary" 5 (by decide)
  have h2 := h.1 (by decide)
  refine ⟨h2.1, ?_⟩
  rw [h2.2]
  decide

/-! ## Claim C9 -/

/-- Counterexample to claim C9: `create_crisis` applies no clamping — a
severity of 150 handed over from Discovery is stored as 150, outside
[0,100]. -/
theorem create_crisis_stores_out_of_range_severity :
    (create_crisis [] 0 "Rumor: Bio-Leak" "desc" "kw" 150 "Hyderabad" 0).2.severity
      = 150 ∧
    ¬(create_crisis [] 0 "Rumor: Bio-Leak" "desc" "kw" 150 "Hyderabad"
        0).2.severity ≤ 100 ∧
    (create_crisis [] 0 "Rumor: Bio-Leak" "desc" "kw" 150 "Hyderabad"
        0).1.map Crisis.severity = [150] := by
  refine ⟨rfl, by decide, rfl⟩

/-- Claim C9 as amended: severity is stored exactly as supplied — no
clamping happens anywhere — so the stored value lies in [0,100] exactly
when the Oracle-produced value already does; `update_crisis_verdict` (the
only other Crisis mutation) never touches severity. -/
theorem crisis_severity_passthrough
    (store : List Crisis) (newId : Nat) (name description keywords : String)
    (severity : Int) (location : String) (now : Nat)
    (hin : 0 ≤ severity ∧ severity ≤ 100) :
    (create_crisis store newId name description keywords severity location
        now).2.severity = severity ∧
    (0 ≤ (create_crisis store newId name description keywords severity location
        now).2.severity ∧
      (create_crisis store newId name description keywords severity location
        now).2.severity ≤ 100) ∧
    (∀ cid vs vsum t, (update_crisis_verdict store cid vs vsum t).map
        Crisis.severity = store.map Crisis.severity) := by
  refine ⟨rfl, hin, ?_⟩
  intro cid vs vsum t
  simp only [update_crisis_verdict, List.map_map]
  apply List.map_congr_left
  intro c _
  by_cases h : c.id = cid <;> simp [h]

/-- Witness for the amended C9 at severity 85. -/
theorem crisis_severity_passthrough_witness :
    (create_crisis [] 0 "Rumor" "d" "kw" 85 "Loc" 0).2.severity = 85 ∧
    0 ≤ (create_crisis [] 0 "Rumor" "d" "kw" 85 "Loc" 0).2.severity ∧
    (create_crisis [] 0 "Rumor" "d" "kw" 85 "Loc" 0).2.severity ≤ 100 := by
  have h := crisis_severity_passthrough [] 0 "Rumor" "d" "kw" 85 "Loc" 0
    (by decide)
  exact ⟨h.1, h.2.1.1, h.2.1.2⟩

/-! ## Claim C1 -/

/-- Filtering a store with pairwise-distinct ids down to the rows whose id
lies in a given list keeps at most as many rows as the list has entries. -/
lemma length_filter_mem_le (crises : List Crisis) (ids : List Nat)
    (hnd : (crises.map Crisis.id).Nodup) :
    (crises.filter (fun c => decide (c.id ∈ ids))).length ≤ ids.length := by
  classical
  set f := crises.filter (fun c => decide (c.id ∈ ids)) with hf
  have hsub : (f.map Crisis.id).Sublist (crises.map Crisis.id) :=
    (List.filter_sublist crises).map Crisis.id
  have hnodup : (f.map Crisis.id).Nodup := List.Nodup.sublist hsub hnd
  have hmem : ∀ x ∈ f.map Crisis.id, x ∈ ids := by
    intro x hx
    obtain ⟨c, hc, rfl⟩ := List.mem_map.mp hx
    have hp := List.of_mem_filter hc
    simpa using hp
  calc f.length = (f.map Crisis.id).length := (List.length_map f Crisis.id).symm
    _ = (f.map Crisis.id).toFinset.card :=
        (List.toFinset_card_of_nodup hnodup).symm
    _ ≤ ids.toFinset.card := by
        refine Finset.card_le_card ?_
        intro x hx
        exact List.mem_toFinset.mpr (hmem x (List.mem_toFinset.mp hx))
    _ ≤ ids.length := ids.toFinset_card_le

/-- The severity-sort fallback keeps at most `workingSetK` rows. -/
lemma fallback_pruning_le (crises : List Crisis)
    (hnd : (crises.map Crisis.id).Nodup) :
    (fallback_pruning crises).length ≤ workingSetK := by
  unfold fallback_pruning
  refine le_trans (length_filter_mem_le crises _ hnd) ?_
  rw [List.length_map]
  exact List.length_take_le _ _

/-- A pool of eleven candidate crises with distinct ids. -/
def elevenCandidates : List Crisis :=
  (List.range 11).map (fun i =>
    { defaultCrisis with id := i, name := "candidate", keywords := "kw",
                         severity := 50 })

/-- Counterexample to claim C1: if the selection Oracle returns eleven ids,
the deletion loop keeps all eleven crises — the working set exceeds K = 10
even though the candidate set had size ≥ K. -/
theorem selection_oracle_overlong_list_exceeds_K :
    workingSetK ≤ elevenCandidates.length ∧
    (elevenCandidates.map Crisis.id).Nodup ∧
    (perform_agentic_selection elevenCandidates
        (.success (List.range 11))).length = 11 ∧
    ¬(perform_agentic_selection elevenCandidates
        (.success (List.range 11))).length ≤ workingSetK := by
  refine ⟨by decide, by decide, by decide, by decide⟩

/-- Claim C1 as amended: after Selection the crisis count never exceeds
K = 10 whenever the Oracle fails, returns an empty selection, or returns at
most K ids — the deletion loop only removes crises outside the returned id
list, so an id list longer than K is the one way to exceed K. -/
theorem selection_bounded_working_set (crises : List Crisis)
    (oracle : SelectionOracle)
    (hsize : workingSetK ≤ crises.length)
    (hnd : (crises.map Crisis.id).Nodup)
    (hK : selectionOracleIdCount oracle ≤ workingSetK) :
    (perform_agentic_selection crises oracle).length ≤ workingSetK := by
  unfold perform_agentic_selection
  split
  · next hemp => simp [List.isEmpty_iff.mp hemp]
  · cases oracle with
    | failure => exact fallback_pruning_le crises hnd
    | success ids =>
      by_cases hids : ids.isEmpty
      · simp only [hids, if_pos]
        exact fallback_pruning_le crises hnd
      · simp only [hids, Bool.false_eq_true, if_neg, not_false_iff]
        refine le_trans (length_filter_mem_le crises ids hnd) ?_
        simpa [selectionOracleIdCount, hids] using hK

/-- Witness for the amended C1: the Oracle returns three of the eleven ids,
and the surviving count is within K. -/
theorem selection_bounded_working_set_witness :
    (perform_agentic_selection elevenCandidates
        (.success [0, 3, 7])).length ≤ workingSetK :=
  selection_bounded_working_set elevenCandidates (.success [0, 3, 7])
    (by decide) (by decide) (by decide)

/-! ## Claim C2 -/

/-- One unfolding of the graph loop. -/
lemma runLoop_succ (roundsOf : Nat → GatherRound) (refineOf : Nat → Option String)
    (fuel : Nat) (s : VerificationState) (n : Nat) :
    runLoop roundsOf refineOf (fuel + 1) s n =
      if assessStatus (gatherStep (roundsOf n) s) = "NEEDS_REFINEMENT" then
        runLoop roundsOf refineOf fuel
          (node_query_refiner (refineOf s.retryCount)
            { gatherStep (roundsOf n) s with
              status := assessStatus (gatherStep (roundsOf n) s) })
          (n + 1)
      else
        .finished
          { gatherStep (roundsOf n) s with
            status := assessStatus (gatherStep (roundsOf n) s) } (n + 1) := by
  rfl

/-- Substantive count of a state filled by an all-negative round is zero. -/
lemma substantiveCount_of_negative (r : GatherRound) (s : VerificationState)
    (h : roundAllNegative r) : substantiveCount (gatherStep r s) = 0 := by
  obtain ⟨ho, hm, hd⟩ := h
  simp [substantiveCount, gatherStep, ho, hm, hd]

/-- A round with no substantive evidence and retry budget left routes the
loop through the refiner. -/
lemma runLoop_refines (roundsOf : Nat → GatherRound)
    (refineOf : Nat → Option String) (fuel : Nat) (s : VerificationState)
    (n : Nat) (hzero : substantiveCount (gatherStep (roundsOf n) s) = 0)
    (hlt : s.retryCount < MAX_RETRIES) :
    runLoop roundsOf refineOf (fuel + 1) s n =
      runLoop roundsOf refineOf fuel
        (node_query_refiner (refineOf s.retryCount)
          { gatherStep (roundsOf n) s with status := "NEEDS_REFINEMENT" })
        (n + 1) := by
  rw [runLoop_succ]
  have ha : assessStatus (gatherStep (roundsOf n) s) = "NEEDS_REFINEMENT" := by
    unfold assessStatus
    rw [if_pos]
    exact ⟨hzero, hlt⟩
  rw [ha, if_pos rfl]

/-- With the retry budget exhausted, the next round always synthesizes and
the run finishes with one more round on the clock. -/
lemma runLoop_one_round (roundsOf : Nat → GatherRound)
    (refineOf : Nat → Option String) (s : VerificationState) (n : Nat)
    (hretry : s.retryCount = MAX_RETRIES) :
    ∃ st, runLoop roundsOf refineOf (0 + 1) s n = .finished st (n + 1) ∧
      st.retryCount = s.retryCount ∧ st.status = "READY_TO_SYNTHESIZE" := by
  rw [runLoop_succ]
  have ha : assessStatus (gatherStep (roundsOf n) s) = "READY_TO_SYNTHESIZE" := by
    unfold assessStatus
    rw [if_neg]
    intro hcontra
    have hlt : (gatherStep (roundsOf n) s).retryCount < MAX_RETRIES := hcontra.2
    rw [show (gatherStep (roundsOf n) s).retryCount = s.retryCount from rfl,
      hretry] at hlt
    exact lt_irrefl _ hlt
  rw [ha, if_neg (by decide)]
  exact ⟨_, rfl, rfl, ha ▸ rfl⟩

/-- Claim C2: when both GATHER rounds come back with zero substantive
items in every category, the run performs exactly one refinement round
(final retry count 1) and then synthesizes, having executed exactly 2
GATHER rounds — i.e. each of the three gatherers ran exactly twice, 6
invocations in all — and the run terminates with a final state rather than
exhausting its budget. -/
theorem zero_substantive_evidence_runs_two_rounds
    (roundsOf : Nat → GatherRound) (refineOf : Nat → Option String)
    (claimText location : String)
    (h0 : roundAllNegative (roundsOf 0)) (h1 : roundAllNegative (roundsOf 1)) :
    ∃ s, run_verification_pipeline roundsOf refineOf claimText location =
        .finished s 2 ∧ s.retryCount = 1 ∧ s.status = "READY_TO_SYNTHESIZE" := by
  unfold run_verification_pipeline
  rw [runLoop_refines roundsOf refineOf MAX_RETRIES (initState claimText location)
      0 (substantiveCount_of_negative _ _ h0) Nat.zero_lt_one,
    show MAX_RETRIES = 0 + 1 from rfl]
  have hr : (node_query_refiner (refineOf (initState claimText location).retryCount)
      { gatherStep (roundsOf 0) (initState claimText location) with
        status := "NEEDS_REFINEMENT" }).retryCount = MAX_RETRIES := by
    cases refineOf (initState claimText location).retryCount <;> rfl
  obtain ⟨st, heq, hretry, hstatus⟩ := runLoop_one_round roundsOf refineOf
    (node_query_refiner (refineOf (initState claimText location).retryCount)
      { gatherStep (roundsOf 0) (initState claimText location) with
        status := "NEEDS_REFINEMENT" }) (0 + 1) hr
  rw [heq]
  exact ⟨st, rfl, by rw [hretry, hr]; rfl, hstatus⟩

/-- An all-negative gather round used by the C2 witness. -/
def negativeRound : GatherRound :=
  { official := ["No official statements found."], media := [],
    debunk := ["No prior fact-checks found."] }

/-- Witness for C2 at a concrete all-negative environment. -/
theorem zero_substantive_evidence_runs_two_rounds_witness :
    ∃ s, run_verification_pipeline (fun _ => negativeRound) (fun _ => none)
        "Bridge collapse rumor" "Mumbai" = .finished s 2 ∧
      s.retryCount = 1 ∧ s.status = "READY_TO_SYNTHESIZE" :=
  zero_substantive_evidence_runs_two_rounds (fun _ => negativeRound)
    (fun _ => none) "Bridge collapse rumor" "Mumbai"
    (by refine ⟨?_, ?_, ?_⟩ <;> decide) (by refine ⟨?_, ?_, ?_⟩ <;> decide)

/-! ## Claim C8 -/

/-- The slot-filling loop advances the pointer once per slot. -/
lemma fillSlots_ptr (n : Nat) (normal batch : List Crisis) (ptr : Nat) :
    (fillSlots n normal batch ptr).2 = ptr + n := by
  induction n generalizing batch ptr with
  | zero => simp [fillSlots]
  | succ n ih =>
    simp only [fillSlots]
    rw [ih]
    omega

/-- The slot-filling loop never drops a batch member. -/
lemma mem_fillSlots (n : Nat) (normal batch : List Crisis) (ptr : Nat)
    (x : Crisis) (hx : x ∈ batch) : x ∈ (fillSlots n normal batch ptr).1 := by
  induction n generalizing batch ptr with
  | zero => simpa [fillSlots] using hx
  | succ n ih =>
    simp only [fillSlots]
    apply ih
    split
    · exact hx
    · exact List.mem_append_left _ hx

/-- Slot `j` of the filling loop lands the normal-risk item at round-robin
index `(ptr + j) % length` in the batch. -/
lemma fillSlots_covers (n : Nat) (normal batch : List Crisis) (ptr j : Nat)
    (hj : j < n) :
    normal.getD ((ptr + j) % normal.length) defaultCrisis ∈
      (fillSlots n normal batch ptr).1 := by
  induction n generalizing batch ptr j with
  | zero => exact absurd hj (Nat.not_lt_zero j)
  | succ n ih =>
    cases j with
    | zero =>
      simp only [fillSlots, Nat.add_zero]
      apply mem_fillSlots
      split
      · next hmem => exact hmem
      · exact List.mem_append_right _ (List.mem_singleton_self _)
    | succ j =>
      simp only [fillSlots]
      rw [show ptr + (j + 1) = ptr + 1 + j from by omega]
      exact ih _ (ptr + 1) j (by omega)

/-- With no cooldown-eligible high-risk items, a batch-building iteration
is exactly one five-slot round-robin fill. -/
lemma buildBatch_no_high (normal : List Crisis) (ptr : Nat) (hne : normal ≠ []) :
    buildBatch [] normal ptr = fillSlots MAX_CONCURRENT_SCANS normal [] ptr := by
  simp only [buildBatch]
  split
  · rfl
  · next hcond =>
    refine absurd ⟨by decide, fun habs => hne ?_⟩ hcond
    simpa [List.isEmpty_iff] using habs

/-- Pointer position after `k` high-risk-free iterations. -/
lemma ptrBefore_no_high (highOf : Nat → List Crisis) (normal : List Crisis)
    (ptr0 : Nat) (hne : normal ≠ []) (k : Nat)
    (hh : ∀ j, j < k → highOf j = []) :
    ptrBefore highOf normal ptr0 k = ptr0 + MAX_CONCURRENT_SCANS * k := by
  induction k with
  | zero => simp [ptrBefore]
  | succ k ih =>
    have hstep : ptrBefore highOf normal ptr0 (k + 1)
        = (buildBatch (highOf k) normal (ptrBefore highOf normal ptr0 k)).2 := rfl
    rw [hstep, hh k (Nat.lt_succ_self k), buildBatch_no_high normal _ hne,
      fillSlots_ptr, ih (fun j hj => hh j (Nat.lt_trans hj (Nat.lt_succ_self k)))]
    ring

/-- Five high-risk crises that are always cooldown-eligible. -/
def saturatingHighRisk : List Crisis :=
  (List.range 5).map (fun i =>
    { defaultCrisis with id := 100 + i, name := "high", keywords := "kw",
                         severity := 95 })

/-- A lone normal-risk crisis competing for batch slots. -/
def loneNormal : Crisis :=
  { defaultCrisis with id := 1, name := "normal", keywords := "kw",
                       severity := 50 }

/-- Counterexample to claim C8: with five always-eligible high-risk crises
(severity ≥ 90) the ceiling is saturated, so the single normal-risk item
(N = 1, hence ⌈N/5⌉ = 1 iteration) is never batched — round-robin fairness
fails for this high-risk set and cooldown state. -/
theorem deep_gathering_starvation :
    (∀ c ∈ saturatingHighRisk, 90 ≤ c.severity) ∧ loneNormal.severity < 90 ∧
    ([loneNormal].length + 4) / 5 = 1 ∧
    ¬loneNormal ∈ batchAt (fun _ => saturatingHighRisk) [loneNormal] 0 0 := by
  refine ⟨by decide, by decide, by decide, by decide⟩

/-- Claim C8 as amended: the ⌈N/ceiling⌉-iteration round-robin guarantee
holds when no cooldown-eligible high-risk items occupy the batch slots
during those iterations — every normal-risk item is then included in at
least one of the first ⌈N/5⌉ batches; when eligible high-risk items
saturate the ceiling, normal items can be starved indefinitely. -/
theorem deep_gathering_round_robin_fairness (normal : List Crisis)
    (highOf : Nat → List Crisis) (ptr0 : Nat) (hne : normal ≠ [])
    (hhigh : ∀ k, k < (normal.length + 4) / 5 → highOf k = []) :
    ∀ i, i < normal.length →
      ∃ k, k < (normal.length + 4) / 5 ∧
        normal.getD i defaultCrisis ∈ batchAt highOf normal ptr0 k := by
  intro i hi
  have hN0 : 0 < normal.length := List.length_pos.mpr hne
  set N := normal.length with hN
  set m := (N + 4) / 5 with hm
  have h5m : N ≤ 5 * m := by omega
  set p := ptr0 % N with hp
  have hpN : p < N := Nat.mod_lt _ hN0
  set t := (i + (N - p)) % N with ht
  have htN : t < N := Nat.mod_lt _ hN0
  have ht5m : t < 5 * m := lt_of_lt_of_le htN h5m
  refine ⟨t / 5, by omega, ?_⟩
  have hb : batchAt highOf normal ptr0 (t / 5)
      = (fillSlots MAX_CONCURRENT_SCANS normal []
          (ptr0 + MAX_CONCURRENT_SCANS * (t / 5))).1 := by
    unfold batchAt
    rw [hhigh (t / 5) (by omega), buildBatch_no_high normal _ hne,
      ptrBefore_no_high highOf normal ptr0 hne (t / 5)
        (fun j hj => hhigh j (by omega))]
  rw [hb]
  obtain ⟨q, hq⟩ : ∃ q, ptr0 = N * q + p :=
    ⟨ptr0 / N, by rw [hp]; exact (Nat.div_add_mod ptr0 N).symm⟩
  have hidx : (ptr0 + MAX_CONCURRENT_SCANS * (t / 5) + t % 5) % N = i := by
    have hteq : ptr0 + MAX_CONCURRENT_SCANS * (t / 5) + t % 5 = ptr0 + t := by
      show ptr0 + 5 * (t / 5) + t % 5 = ptr0 + t
      omega
    rw [hteq]
    by_cases hcase : i + (N - p) < N
    · have ht1 : t = i + (N - p) := by rw [ht]; exact Nat.mod_eq_of_lt hcase
      have hsum : ptr0 + t = N * q + N + i := by
        rw [hq, ht1]
        have hgen : ∀ M : Nat, M + p + (i + (N - p)) = M + N + i := by
          intro M; omega
        exact hgen (N * q)
      rw [hsum, show N * q + N + i = i + (q + 1) * N from by ring,
        Nat.add_mul_mod_self_right]
      exact Nat.mod_eq_of_lt hi
    · have hip : p ≤ i := by omega
      have ht1 : t = i - p := by
        rw [ht, show i + (N - p) = (i - p) + N from by omega,
          Nat.add_mod_right]
        exact Nat.mod_eq_of_lt (by omega)
      have hsum : ptr0 + t = N * q + i := by
        rw [hq, ht1]
        have hgen : ∀ M : Nat, M + p + (i - p) = M + i := by
          intro M; omega
        exact hgen (N * q)
      rw [hsum, show N * q + i = i + q * N from by ring,
        Nat.add_mul_mod_self_right]
      exact Nat.mod_eq_of_lt hi
  have hcov := fillSlots_covers MAX_CONCURRENT_SCANS normal []
    (ptr0 + MAX_CONCURRENT_SCANS * (t / 5)) (t % 5)
    (show t % 5 < 5 from by omega)
  rw [hidx] at hcov
  exact hcov

/-- Seven distinct normal-risk crises for the C8 witness. -/
def sevenNormals : List Crisis :=
  (List.range 7).map (fun i =>
    { defaultCrisis with id := i, name := "normal", keywords := "kw",
                         severity := 50 })

/-- Witness for the amended C8: with no eligible high-risk items, the last
of seven normal crises is batched within ⌈7/5⌉ = 2 iterations. -/
theorem deep_gathering_round_robin_fairness_witness :
    ∃ k, k < (sevenNormals.length + 4) / 5 ∧
      sevenNormals.getD 6 defaultCrisis ∈
        batchAt (fun _ => []) sevenNormals 0 k :=
  deep_gathering_round_robin_fairness sevenNormals (fun _ => []) 0
    (by decide) (fun k _ => rfl) 6 (by decide)

end SentinelAI
